import Mathlib

/-!
Shallow embedding of the `nd-zipfile-py` locking / cursor layer
(`src/lib.rs`, `src/read.rs`, `src/write.rs`).

The archive handle owns `Arc<Mutex<Option<codec>>>`: a shared mutex guarding
an optional codec instance.  We model the mutex state as a `locked : Bool`
field (true exactly while an entry cursor holds the `ArcMutexGuard`) and the
guarded slot as an `Option`.  Operations that use `try_lock` are total
functions returning a new state and a `PyResult`; the one operation that uses
the blocking `lock()` primitive (`WriteZipFile::close`) returns a `LockResult`
whose `blocks` constructor marks the case where the mutex is already held and
the call would block instead of returning.

The byte-level ZIP codec (the external `zip` crate) is out of scope of the
repository; where an operation delegates to it, the collaborator is modelled
from the interface description, with doc comments marking those definitions.
-/

namespace NdZip

/-- Python-exception results produced by the binding layer: each constructor is
one pyo3 exception type together with its message. -/
inductive PyErr where
  | runtimeError (msg : String)
  | valueError (msg : String)
  | notImplementedError (msg : String)
  | osError (msg : String)
  deriving DecidableEq, Repr

/-- Outcome of an operation that performs a *blocking* mutex acquisition:
`blocks` when the mutex is already held (the call never returns while the
holder is live), otherwise the updated state and the returned result. -/
inductive LockResult (σ : Type) (α : Type) where
  | blocks
  | returns (s : σ) (r : Except PyErr α)
  deriving Repr

/-- Modelled from the spec: one entry of a read-mode archive as the codec
collaborator exposes it — a name, an encrypted flag, the correct password
bytes (meaningful only when encrypted) and the plaintext content. -/
structure ZipEntry where
  name : String
  encrypted : Bool
  password : List Nat
  content : List Nat
  deriving DecidableEq, Repr

/-- Modelled from the spec: the codec collaborator's parsed read-mode archive
(`zip::ZipArchive`), reduced to its entry list. -/
structure ZipArchive where
  entries : List ZipEntry
  deriving DecidableEq, Repr

/-- Modelled from the spec: collaborator `index_for_name` — the index of the
first entry with the given name, if any. -/
def ZipArchive.index_for_name (a : ZipArchive) (name : String) : Option Nat :=
  a.entries.findIdx? (fun e => e.name = name)

/-- Modelled from the spec: collaborator `by_index_raw` — peek the metadata of
the entry at an index without committing to decode. -/
def ZipArchive.by_index_raw (a : ZipArchive) (idx : Nat) : Except String ZipEntry :=
  match a.entries[idx]? with
  | some e => .ok e
  | none => .error "invalid index"

/-- Modelled from the spec: collaborator error message for a wrong password. -/
def invalidPasswordMsg : String := "invalid password for file in archive"

/-- Modelled from the spec: collaborator `by_index` — open the decode stream of
a non-encrypted entry; an encrypted entry needs the decrypting variant. -/
def ZipArchive.by_index (a : ZipArchive) (idx : Nat) : Except String (List Nat) :=
  match a.entries[idx]? with
  | some e => if e.encrypted then .error "password required" else .ok e.content
  | none => .error "invalid index"

/-- Modelled from the spec: collaborator `by_index_decrypt` — open the decode
stream of an entry with a password; a wrong password for an encrypted entry is
a decryption error. -/
def ZipArchive.by_index_decrypt (a : ZipArchive) (idx : Nat) (password : List Nat) :
    Except String (List Nat) :=
  match a.entries[idx]? with
  | some e =>
    if e.encrypted = true ∧ password ≠ e.password then .error invalidPasswordMsg
    else .ok e.content
  | none => .error "invalid index"

/-- `ReadZipFile` (read.rs): `file: Arc<Mutex<Option<ZipArchive<File>>>>`.
`locked` is the mutex state (held by a live `ReadZipExtFile`), `slot` the
guarded optional codec instance. -/
structure ReadZipFile where
  locked : Bool
  slot : Option ZipArchive
  deriving DecidableEq, Repr

/-- `ReadZipExtFile` (read.rs): `inner: Option<ReadZipExtFileInner>` where the
inner value pairs the lock guard with the data view.  The view is the decode
stream, modelled by its remaining plaintext bytes. -/
structure ReadZipExtFile where
  inner : Option (List Nat)
  deriving DecidableEq, Repr

/-- `ReadZipFile::close` (read.rs lines 27–39): `try_lock`, failing fast when
the mutex is held; on success drain the slot (a `None` slot is taken as a
silent no-op) and return `Ok`. -/
def ReadZipFile.close (z : ReadZipFile) : ReadZipFile × Except PyErr Unit :=
  if z.locked then
    (z, .error (.runtimeError "Cannot close file while a file handle is still open"))
  else
    ({ z with slot := none }, .ok ())

/-- `ReadZipFile::open` (read.rs lines 41–90): `try_lock_arc` failing fast when
the mutex is held; then, with the guard held, resolve the entry (closed-slot
check, name lookup, encrypted peek, password handling).  Every error path
drops the guard before returning, so the returned state keeps `locked = false`;
on success the guard moves into the cursor, so `locked` becomes `true`. -/
def ReadZipFile.open_entry (z : ReadZipFile) (name : String) (pwd : Option (List Nat)) :
    ReadZipFile × Except PyErr ReadZipExtFile :=
  if z.locked then
    (z, .error (.runtimeError "Cannot open another file handle while another file handle is still open"))
  else
    match z.slot with
    | none => (z, .error (.valueError "Attempt to use ZIP archive that was already closed"))
    | some a =>
      match a.index_for_name name with
      | none => (z, .error (.runtimeError ("File " ++ name ++ " does not exist")))
      | some idx =>
        match a.by_index_raw idx with
        | .error e => (z, .error (.runtimeError e))
        | .ok entry =>
          if entry.encrypted then
            match pwd with
            | none =>
              (z, .error (.runtimeError ("File " ++ name ++ " is encrypted, password required for extraction")))
            | some password =>
              match a.by_index_decrypt idx password with
              | .error e => (z, .error (.runtimeError e))
              | .ok bytes => ({ z with locked := true }, .ok ⟨some bytes⟩)
          else
            match a.by_index idx with
            | .error e => (z, .error (.runtimeError e))
            | .ok bytes => ({ z with locked := true }, .ok ⟨some bytes⟩)

/-- `ReadZipFile::namelist` (read.rs lines 92–103): `try_lock` failing fast,
closed-slot check, then the collaborator's `file_names`. -/
def ReadZipFile.namelist (z : ReadZipFile) : ReadZipFile × Except PyErr (List String) :=
  if z.locked then
    (z, .error (.runtimeError "Cannot list zip while a file handle is still open"))
  else
    match z.slot with
    | none => (z, .error (.valueError "Attempt to use ZIP archive that was already closed"))
    | some a => (z, .ok (a.entries.map (fun e => e.name)))

/-- `ReadZipExtFile::read` (read.rs lines 120–131): fails if the cursor was
closed, otherwise drains the remaining bytes of the decode stream. -/
def ReadZipExtFile.read (c : ReadZipExtFile) : ReadZipExtFile × Except PyErr (List Nat) :=
  match c.inner with
  | none => (c, .error (.valueError "Attempt to use ZipExtFile that was already closed"))
  | some bytes => (⟨some ([] : List Nat)⟩, .ok bytes)

/-- `ReadZipExtFile::close` (read.rs lines 133–137): `self.inner.take()` drops
the data view and then the `ArcMutexGuard`, releasing the archive's mutex;
when `inner` is already `None` nothing happens.  The owning archive state is
threaded explicitly because dropping the guard is what flips its mutex. -/
def ReadZipExtFile.close (z : ReadZipFile) (c : ReadZipExtFile) :
    ReadZipFile × ReadZipExtFile :=
  match c.inner with
  | some _ => ({ z with locked := false }, ⟨none⟩)
  | none => (z, c)

/-- `CompressionKind` (lib.rs): the closed set of supported compression kinds. -/
inductive CompressionKind where
  | Stored
  | Deflated
  | Bzip2
  | Lzma
  deriving DecidableEq, Repr

/-- `TryFrom<u8> for CompressionKind` (lib.rs lines 33–47): the constants are
`ZIP_STORED = 0`, `ZIP_DEFLATED = 8`, `ZIP_BZIP2 = 12`, `ZIP_LZMA = 14`; any
other code is a `PyNotImplementedError`. -/
def CompressionKind.tryFrom (value : Nat) : Except PyErr CompressionKind :=
  match value with
  | 0 => .ok .Stored
  | 8 => .ok .Deflated
  | 12 => .ok .Bzip2
  | 14 => .ok .Lzma
  | v => .error (.notImplementedError (toString v ++ " is not a known compression type"))

/-- `From<CompressionKind> for u8` (lib.rs lines 49–58). -/
def CompressionKind.toU8 : CompressionKind → Nat
  | .Stored => 0
  | .Deflated => 8
  | .Bzip2 => 12
  | .Lzma => 14

/-- `ZipInfo` (lib.rs lines 249–258): the entry descriptor. -/
structure ZipInfo where
  filename : String
  compress_type : Nat
  compress_level : Option Nat
  deriving DecidableEq, Repr

/-- `ZipInfo::new` (lib.rs lines 262–270). -/
def ZipInfo.new (filename : String) : ZipInfo :=
  { filename := filename, compress_type := 0, compress_level := none }

/-- Modelled from the spec: the codec collaborator's per-entry options record
(`zip::write::SimpleFileOptions`), reduced to the fields the layer sets. -/
structure FileOptions where
  compression_method : CompressionKind
  compression_level : Option Nat
  deriving DecidableEq, Repr

/-- Modelled from the spec: collaborator default options (Deflate, no level). -/
def FileOptions.default : FileOptions :=
  { compression_method := .Deflated, compression_level := none }

/-- Modelled from the spec: one entry registered in the write-mode container
index — its name, the options it was started with, and its bytes so far. -/
structure WrittenEntry where
  name : String
  options : FileOptions
  data : List Nat
  deriving DecidableEq, Repr

/-- Modelled from the spec: the codec collaborator's writer (`zip::ZipWriter`).
`entries` is the container index of started entries in order; the three flag
fields model I/O failures of the collaborator's `start_file`, `finish` and the
underlying file's `flush`. -/
structure ZipWriter where
  entries : List WrittenEntry
  startFails : Bool
  finishFails : Bool
  flushFails : Bool
  deriving DecidableEq, Repr

/-- Modelled from the spec: collaborator `start_file` — registers a new empty
entry in the container index, or fails without registering it. -/
def ZipWriter.start_file (w : ZipWriter) (name : String) (options : FileOptions) :
    Except String ZipWriter :=
  if w.startFails then .error "could not start file"
  else .ok { w with entries := w.entries ++ [{ name := name, options := options, data := [] }] }

/-- Modelled from the spec: collaborator `write_all` — append bytes to the
entry most recently started. -/
def ZipWriter.write_all (w : ZipWriter) (buffer : List Nat) : ZipWriter :=
  match w.entries.getLast? with
  | some e => { w with entries := w.entries.dropLast ++ [{ e with data := e.data ++ buffer }] }
  | none => w

/-- Modelled from the spec: the writer returned by a successful `finish`, with
the trailing index finalized over the listed entries. -/
structure FinishedWriter where
  entries : List WrittenEntry
  flushFails : Bool
  deriving DecidableEq, Repr

/-- Modelled from the spec: collaborator `finish` — writes the trailing index
structure, or fails with an I/O error. -/
def ZipWriter.finish (w : ZipWriter) : Except String FinishedWriter :=
  if w.finishFails then .error "could not finish archive"
  else .ok { entries := w.entries, flushFails := w.flushFails }

/-- Modelled from the spec: flushing the finalized writer's buffered bytes to
the underlying file, or failing with an I/O error. -/
def FinishedWriter.flush (f : FinishedWriter) : Except String Unit :=
  if f.flushFails then .error "flush failed" else .ok ()

/-- `WriteZipFile` (write.rs lines 15–20): the mutex-guarded optional writer
plus the archive-wide compression defaults. -/
structure WriteZipFile where
  locked : Bool
  slot : Option ZipWriter
  compression_kind : CompressionKind
  compression_level : Option Nat
  deriving DecidableEq, Repr

/-- `WriteZipExtFile` (write.rs lines 116–118): it consists solely of the held
`ArcMutexGuard`; the data view is the writer inside the guarded slot. -/
inductive WriteZipExtFile where
  | mk
  deriving DecidableEq, Repr

/-- `WriteZipFile::close` (write.rs lines 37–46): acquires the mutex with the
*blocking* `lock()` (so the call blocks while an entry cursor holds the
guard), `take()`s the slot, then `finish()` and `flush()`; either failure is
returned to the caller, and the slot stays drained in every case because
`take()` ran first. -/
def WriteZipFile.close (z : WriteZipFile) : LockResult WriteZipFile Unit :=
  if z.locked then .blocks
  else
    match z.slot with
    | none => .returns z (.ok ())
    | some w =>
      match w.finish with
      | .error e => .returns { z with slot := none } (.error (.runtimeError e))
      | .ok fw =>
        match fw.flush with
        | .error e => .returns { z with slot := none } (.error (.osError e))
        | .ok _ => .returns { z with slot := none } (.ok ())

/-- The `name` argument of `WriteZipFile::open` (a `PyAny`): a string, a
`ZipInfo`, or any other Python value. -/
inductive NameArg where
  | str (s : String)
  | info (zi : ZipInfo)
  | other
  deriving DecidableEq, Repr

/-- `WriteZipFile::open` (write.rs lines 59–71): build the entry descriptor —
from the archive-wide defaults when the argument is a string, from the given
`ZipInfo` otherwise; any other argument is a `PyValueError`. -/
def WriteZipFile.zip_info_of (z : WriteZipFile) (name : NameArg) : Except PyErr ZipInfo :=
  match name with
  | .str s =>
    .ok { filename := s, compress_type := z.compression_kind.toU8,
          compress_level := z.compression_level }
  | .info zi => .ok zi
  | .other => .error (.valueError "name must be a string or ZipInfo")

/-- `WriteZipFile::open` (write.rs lines 73–106): the per-kind options match —
Stored sets the method only; Deflate validates a present level against 0–9;
Bzip2 validates a present level against 1–9; LZMA sets the method only, the
level is ignored. -/
def optionsFor (kind : CompressionKind) (level : Option Nat) : Except PyErr FileOptions :=
  match kind with
  | .Stored => .ok { FileOptions.default with compression_method := .Stored }
  | .Deflated =>
    match level with
    | some l =>
      if l ≤ 9 then
        .ok { compression_method := .Deflated, compression_level := some l }
      else
        .error (.valueError ("invalid ZIP_DEFLATED compresslevel " ++ toString l))
    | none => .ok { FileOptions.default with compression_method := .Deflated }
  | .Bzip2 =>
    match level with
    | some l =>
      if 1 ≤ l ∧ l ≤ 9 then
        .ok { compression_method := .Bzip2, compression_level := some l }
      else
        .error (.valueError ("invalid ZIP_BZIP2 compresslevel " ++ toString l))
    | none => .ok { FileOptions.default with compression_method := .Bzip2 }
  | .Lzma => .ok { FileOptions.default with compression_method := .Lzma }

/-- `WriteZipFile::open` (write.rs lines 48–113): `try_lock_arc` failing fast
when the mutex is held; with the guard held: closed-slot check, descriptor
construction, compression-kind decoding, level validation, then the
collaborator's `start_file`.  Each early error return drops the local guard,
so the returned state keeps `locked = false` and the slot untouched; on
success the guard moves into the cursor (`locked` becomes `true`) and the slot
holds the writer with the new entry started. -/
def WriteZipFile.open_entry (z : WriteZipFile) (name : NameArg) :
    WriteZipFile × Except PyErr WriteZipExtFile :=
  if z.locked then
    (z, .error (.runtimeError "Cannot open another file handle while another file handle is still open"))
  else
    match z.slot with
    | none => (z, .error (.valueError "Attempt to use ZIP archive that was already closed"))
    | some w =>
      match z.zip_info_of name with
      | .error e => (z, .error e)
      | .ok zip_info =>
        match CompressionKind.tryFrom zip_info.compress_type with
        | .error e => (z, .error e)
        | .ok kind =>
          match optionsFor kind zip_info.compress_level with
          | .error e => (z, .error e)
          | .ok options =>
            match w.start_file zip_info.filename options with
            | .error e => (z, .error (.runtimeError e))
            | .ok w' => ({ z with locked := true, slot := some w' }, .ok .mk)

/-- `WriteZipExtFile::write` (write.rs lines 121–129): dereference the held
guard; a drained slot is an already-closed error, otherwise the buffer is
appended to the current entry's encode stream. -/
def WriteZipExtFile.write (z : WriteZipFile) (buffer : List Nat) :
    WriteZipFile × Except PyErr Unit :=
  match z.slot with
  | none => (z, .error (.valueError "Attempt to use ZIP archive that was already closed"))
  | some w => ({ z with slot := some (w.write_all buffer) }, .ok ())

/-- `WriteZipExtFile::close` (write.rs line 131): the body is empty — it does
not drop the guard, touch the slot, or change any state; the mutex stays held
until the cursor value itself is dropped. -/
def WriteZipExtFile.close (z : WriteZipFile) (c : WriteZipExtFile) :
    WriteZipFile × WriteZipExtFile :=
  (z, c)

/-- Dropping a `WriteZipExtFile` releases the `ArcMutexGuard` it holds; this
happens when the cursor value is destroyed, not in its `close`. -/
def WriteZipExtFile.drop (z : WriteZipFile) : WriteZipFile :=
  { z with locked := false }

/-! Shared lemmas about the open paths. -/

/-- A successful read-mode entry-open hands the guard to the cursor: the
resulting archive state has the mutex held. -/
theorem ReadZipFile.read_open_ok_locked (z : ReadZipFile) (name : String)
    (pwd : Option (List Nat)) (z' : ReadZipFile) (c : ReadZipExtFile)
    (h : z.open_entry name pwd = (z', .ok c)) : z'.locked = true := by
  unfold ReadZipFile.open_entry at h
  repeat' split at h
  all_goals (injection h with h1 h2)
  all_goals (try cases h2)
  all_goals (subst h1; rfl)

/-- A successful write-mode entry-open hands the guard to the cursor: the
resulting archive state has the mutex held. -/
theorem WriteZipFile.write_open_ok_locked (z : WriteZipFile) (arg : NameArg)
    (z' : WriteZipFile) (c : WriteZipExtFile)
    (h : z.open_entry arg = (z', .ok c)) : z'.locked = true := by
  unfold WriteZipFile.open_entry at h
  repeat' split at h
  all_goals (injection h with h1 h2)
  all_goals (try cases h2)
  all_goals (subst h1; rfl)

/-- C1: with a live entry cursor (the mutex guard held), a second entry-open
attempt on the same archive handle — in read mode or in write mode — returns
immediately with the busy `PyRuntimeError` and an unchanged archive state; it
never succeeds, and the `try_lock` acquisition cannot block.  The last two
conjuncts tie the hypothesis to a live cursor: any successful open leaves the
mutex held. -/
theorem c1_second_open_fails_busy (z : ReadZipFile) (zw : WriteZipFile)
    (name : String) (pwd : Option (List Nat)) (arg : NameArg)
    (hz : z.locked = true) (hw : zw.locked = true) :
    z.open_entry name pwd =
      (z, .error (.runtimeError
        "Cannot open another file handle while another file handle is still open")) ∧
    zw.open_entry arg =
      (zw, .error (.runtimeError
        "Cannot open another file handle while another file handle is still open")) ∧
    (∀ (z0 z1 : ReadZipFile) (n : String) (p : Option (List Nat)) (c : ReadZipExtFile),
      z0.open_entry n p = (z1, .ok c) → z1.locked = true) ∧
    (∀ (zw0 zw1 : WriteZipFile) (a : NameArg) (cw : WriteZipExtFile),
      zw0.open_entry a = (zw1, .ok cw) → zw1.locked = true) := by
  refine ⟨?_, ?_, ?_, ?_⟩
  · simp [ReadZipFile.open_entry, hz]
  · simp [WriteZipFile.open_entry, hw]
  · exact fun z0 z1 n p c h => ReadZipFile.read_open_ok_locked z0 n p z1 c h
  · exact fun zw0 zw1 a cw h => WriteZipFile.write_open_ok_locked zw0 a zw1 cw h

/-- C1 witness: a concrete read archive and a concrete write archive, both
with the guard held, on which the busy behaviour evaluates as stated. -/
theorem c1_second_open_fails_busy_witness :
    ({ locked := true, slot := some { entries := [] } } : ReadZipFile).locked = true ∧
    ({ locked := true,
       slot := some { entries := [], startFails := false, finishFails := false,
                      flushFails := false },
       compression_kind := .Stored, compression_level := none } : WriteZipFile).locked = true ∧
    (({ locked := true, slot := some { entries := [] } } : ReadZipFile).open_entry
        "a.txt" none).2 =
      .error (.runtimeError
        "Cannot open another file handle while another file handle is still open") :=
  ⟨rfl, rfl, by
    have h := c1_second_open_fails_busy
      { locked := true, slot := some { entries := [] } }
      { locked := true,
        slot := some { entries := [], startFails := false, finishFails := false,
                       flushFails := false },
        compression_kind := .Stored, compression_level := none }
      "a.txt" none (.str "b.txt") rfl rfl
    simp [h.1]⟩

/-- A failed read-mode entry-open leaves the archive state unchanged — in
particular the guard acquired at the top of `ReadZipFile::open` has been
dropped again, so the mutex is free. -/
theorem ReadZipFile.read_open_error_state (z : ReadZipFile) (name : String)
    (pwd : Option (List Nat)) (hz : z.locked = false) (e : PyErr)
    (h : (z.open_entry name pwd).2 = .error e) : (z.open_entry name pwd).1 = z := by
  unfold ReadZipFile.open_entry at h ⊢
  simp only [hz, Bool.false_eq_true, if_false] at h ⊢
  repeat' split at h
  all_goals (first | rfl | simp_all)

/-- A failed write-mode entry-open leaves the archive state unchanged — the
guard acquired at the top of `WriteZipFile::open` has been dropped again. -/
theorem WriteZipFile.write_open_error_state (z : WriteZipFile) (arg : NameArg)
    (hz : z.locked = false) (e : PyErr)
    (h : (z.open_entry arg).2 = .error e) : (z.open_entry arg).1 = z := by
  unfold WriteZipFile.open_entry at h ⊢
  simp only [hz, Bool.false_eq_true, if_false] at h ⊢
  repeat' split at h
  all_goals (first | rfl | simp_all)

/-- Opening an existing non-encrypted entry on an open, unlocked read archive
succeeds, locking the archive and returning its plaintext as the view. -/
theorem ReadZipFile.open_ok_of_plain (z : ReadZipFile) (name : String)
    (a : ZipArchive) (i : Nat) (ent : ZipEntry) (hz : z.locked = false)
    (hs : z.slot = some a) (hi : a.index_for_name name = some i)
    (hent : a.entries[i]? = some ent) (henc : ent.encrypted = false) :
    z.open_entry name none = ({ z with locked := true }, .ok ⟨some ent.content⟩) := by
  simp [ReadZipFile.open_entry, hz, hs, hi, ZipArchive.by_index_raw, hent,
    ZipArchive.by_index, henc]

/-- Opening a fresh entry by plain name on an open, unlocked write archive
with Stored defaults succeeds, registering the entry in the container index. -/
theorem WriteZipFile.open_ok_str_stored (z : WriteZipFile) (w : ZipWriter)
    (s : String) (hz : z.locked = false) (hs : z.slot = some w)
    (hk : z.compression_kind = .Stored) (hst : w.startFails = false) :
    z.open_entry (.str s) =
      ({ z with
          locked := true,
          slot := some
            { w with
              entries := w.entries ++
                  [{ name := s,
                     options :=
                       { compression_method := .Stored, compression_level := none },
                     data := [] }] } },
        .ok .mk) := by
  simp [WriteZipFile.open_entry, hz, hs, WriteZipFile.zip_info_of, hk,
    CompressionKind.toU8, CompressionKind.tryFrom, optionsFor, FileOptions.default,
    ZipWriter.start_file, hst]

/-- C2: evaluation of the code at the failing input.  The read-variant cursor
close does release the mutex (a subsequent open succeeds), but the
write-variant `WriteZipExtFile::close` has an empty body: after opening a
write entry and calling `close()` on its cursor, the archive state is
unchanged, the mutex is still held, and the next entry-open fails busy —
contradicting the claim that cursor close releases the lock in both
variants.  The lock is only released when the cursor value is dropped. -/
theorem c2_write_cursor_close_does_not_release_lock :
    let a : ZipArchive :=
      { entries := [{ name := "a.txt", encrypted := false, password := [],
                      content := [104, 105] }] }
    let z0 : ReadZipFile := { locked := false, slot := some a }
    let zw0 : WriteZipFile :=
      { locked := false,
        slot := some { entries := [], startFails := false, finishFails := false,
                       flushFails := false },
        compression_kind := .Stored, compression_level := none }
    let opened := zw0.open_entry (.str "a.txt")
    let afterClose := WriteZipExtFile.close opened.1 .mk
    -- read variant: close releases the lock, the next open succeeds
    ((ReadZipExtFile.close (z0.open_entry "a.txt" none).1
        ⟨some [104, 105]⟩).1.open_entry "a.txt" none).2 =
      .ok ⟨some [104, 105]⟩ ∧
    -- write variant: open succeeded, cursor close() changes nothing at all
    opened.2 = .ok .mk ∧
    afterClose = (opened.1, .mk) ∧
    afterClose.1.locked = true ∧
    -- so the next entry-open still fails busy instead of succeeding
    (afterClose.1.open_entry (.str "b.txt")).2 =
      .error (.runtimeError
        "Cannot open another file handle while another file handle is still open") := by
  exact ⟨rfl, rfl, rfl, rfl, rfl⟩

/-- C3: evaluation of the code at the failing input.  Read-mode `close` and
`namelist` do fail fast with a busy error while an entry cursor is live, but
write-mode `WriteZipFile::close` acquires the mutex with the blocking
`lock()`: with a live cursor holding the guard the call blocks (deadlocks for
a single-threaded caller) instead of failing fast with an error, contradicting
the claim for write mode. -/
theorem c3_write_close_blocks_while_cursor_open :
    ({ locked := true,
       slot := some { entries := [], startFails := false, finishFails := false,
                      flushFails := false },
       compression_kind := .Stored, compression_level := none } : WriteZipFile).close =
      .blocks ∧
    ({ locked := true, slot := some { entries := [] } } : ReadZipFile).close =
      ({ locked := true, slot := some { entries := [] } },
        .error (.runtimeError "Cannot close file while a file handle is still open")) ∧
    ({ locked := true, slot := some { entries := [] } } : ReadZipFile).namelist =
      ({ locked := true, slot := some { entries := [] } },
        .error (.runtimeError "Cannot list zip while a file handle is still open")) := by
  exact ⟨rfl, rfl, rfl⟩

/-- C4: every entry-open that fails partway through resolution (after the
`try_lock` acquisition succeeded) returns the archive to its pre-call state —
in particular the mutex is released before the error is returned — so a
subsequent entry-open of a valid name succeeds: shown for the read side
(existing non-encrypted entry) and the write side (fresh entry under the
archive's Stored defaults). -/
theorem c4_failed_open_releases_lock (z : ReadZipFile) (name name2 : String)
    (pwd : Option (List Nat)) (e : PyErr) (a : ZipArchive) (i : Nat) (ent : ZipEntry)
    (zw : WriteZipFile) (arg : NameArg) (ew : PyErr) (w : ZipWriter) (s2 : String)
    (hz : z.locked = false) (hw : zw.locked = false)
    (hfail : (z.open_entry name pwd).2 = .error e)
    (hwfail : (zw.open_entry arg).2 = .error ew)
    (hs : z.slot = some a) (hi : a.index_for_name name2 = some i)
    (hent : a.entries[i]? = some ent) (henc : ent.encrypted = false)
    (hwk : zw.compression_kind = .Stored) (hws : zw.slot = some w)
    (hwst : w.startFails = false) :
    (z.open_entry name pwd).1 = z ∧
    (zw.open_entry arg).1 = zw ∧
    ((z.open_entry name pwd).1.open_entry name2 none).2 = .ok ⟨some ent.content⟩ ∧
    ((zw.open_entry arg).1.open_entry (.str s2)).2.isOk = true := by
  have h1 := ReadZipFile.read_open_error_state z name pwd hz e hfail
  have h2 := WriteZipFile.write_open_error_state zw arg hw ew hwfail
  refine ⟨h1, h2, ?_, ?_⟩
  · rw [h1, ReadZipFile.open_ok_of_plain z name2 a i ent hz hs hi hent henc]
  · rw [h2, WriteZipFile.open_ok_str_stored zw w s2 hw hws hwk hwst]
    rfl

/-- C4 witness: a read archive holding only `b.txt` (plain), probed first with
the missing name `missing.txt`, and a write archive probed with a non-string,
non-`ZipInfo` argument; both failures keep the state unchanged and the
follow-up opens succeed. -/
theorem c4_failed_open_releases_lock_witness :
    (({ locked := false,
        slot := some { entries := [{ name := "b.txt", encrypted := false,
                                     password := [], content := [7, 8] }] } } :
          ReadZipFile).open_entry "missing.txt" none).2 =
      .error (.runtimeError "File missing.txt does not exist") ∧
    ((({ locked := false,
         slot := some { entries := [{ name := "b.txt", encrypted := false,
                                      password := [], content := [7, 8] }] } } :
           ReadZipFile).open_entry "missing.txt" none).1.open_entry "b.txt" none).2 =
      .ok ⟨some [7, 8]⟩ := by
  have h := c4_failed_open_releases_lock
    { locked := false,
      slot := some { entries := [{ name := "b.txt", encrypted := false,
                                   password := [], content := [7, 8] }] } }
    "missing.txt" "b.txt" none (.runtimeError "File missing.txt does not exist")
    { entries := [{ name := "b.txt", encrypted := false, password := [],
                    content := [7, 8] }] }
    0
    { name := "b.txt", encrypted := false, password := [], content := [7, 8] }
    { locked := false,
      slot := some { entries := [], startFails := false, finishFails := false,
                     flushFails := false },
      compression_kind := .Stored, compression_level := none }
    .other (.valueError "name must be a string or ZipInfo")
    { entries := [], startFails := false, finishFails := false, flushFails := false }
    "c.txt" rfl rfl rfl rfl rfl rfl rfl rfl rfl rfl rfl
  exact ⟨rfl, h.2.2.1⟩

/-- C5: after the guarded codec slot has been drained (the state `close`
leaves behind, shown by the last two conjuncts), every entry-open and metadata
operation — read-mode open, read-mode namelist, write-mode open — fails with
the already-closed `PyValueError` and changes nothing. -/
theorem c5_operations_after_close_fail (z : ReadZipFile) (zw : WriteZipFile)
    (name : String) (pwd : Option (List Nat)) (arg : NameArg)
    (hz : z.locked = false) (hzs : z.slot = none)
    (hw : zw.locked = false) (hws : zw.slot = none) :
    z.open_entry name pwd =
      (z, .error (.valueError "Attempt to use ZIP archive that was already closed")) ∧
    z.namelist =
      (z, .error (.valueError "Attempt to use ZIP archive that was already closed")) ∧
    zw.open_entry arg =
      (zw, .error (.valueError "Attempt to use ZIP archive that was already closed")) ∧
    (∀ z0 : ReadZipFile, z0.locked = false → (z0.close).1.slot = none) ∧
    (∀ (zw0 s : WriteZipFile) (r : Except PyErr Unit),
      zw0.close = .returns s r → s.slot = none) := by
  refine ⟨?_, ?_, ?_, ?_, ?_⟩
  · simp [ReadZipFile.open_entry, hz, hzs]
  · simp [ReadZipFile.namelist, hz, hzs]
  · simp [WriteZipFile.open_entry, hw, hws]
  · intro z0 h0
    simp [ReadZipFile.close, h0]
  · intro zw0 s r h0
    unfold WriteZipFile.close at h0
    repeat' split at h0
    all_goals cases h0
    all_goals simp_all

/-- C5 witness: the concrete drained states obtained after closing a fresh
read archive and a fresh write archive. -/
theorem c5_operations_after_close_fail_witness :
    (({ locked := false, slot := none } : ReadZipFile).open_entry "a.txt" none).2 =
      .error (.valueError "Attempt to use ZIP archive that was already closed") ∧
    ({ locked := false, slot := none, compression_kind := .Stored,
       compression_level := none } : WriteZipFile).open_entry (.str "a.txt") =
      ({ locked := false, slot := none, compression_kind := .Stored,
         compression_level := none },
        .error (.valueError "Attempt to use ZIP archive that was already closed")) := by
  have h := c5_operations_after_close_fail
    { locked := false, slot := none }
    { locked := false, slot := none, compression_kind := .Stored,
      compression_level := none }
    "a.txt" none (.str "a.txt") rfl rfl rfl rfl
  exact ⟨by rw [h.1], h.2.2.1⟩

/-- C6: write-mode entry-open validates the compression level per kind before
the codec is asked to start the entry — Stored and LZMA never consult the
level, a present Deflate level must satisfy 0–9, a present Bzip2 level must
satisfy 1–9 — and an out-of-range Deflate level (such as 15) fails with the
invalid-compresslevel `PyValueError` while the archive state (hence the
container index and the byte stream) is left exactly as before the call. -/
theorem c6_compresslevel_validated_before_codec (zw : WriteZipFile)
    (w : ZipWriter) (zi : ZipInfo) (l : Nat)
    (hz : zw.locked = false) (hs : zw.slot = some w)
    (ht : zi.compress_type = 8) (hl : zi.compress_level = some l) (hbad : 9 < l) :
    (∀ lv : Option Nat, optionsFor .Stored lv =
      .ok { compression_method := .Stored, compression_level := none }) ∧
    (∀ lv : Nat, (optionsFor .Deflated (some lv)).isOk = true ↔ lv ≤ 9) ∧
    (∀ lv : Nat, (optionsFor .Bzip2 (some lv)).isOk = true ↔ (1 ≤ lv ∧ lv ≤ 9)) ∧
    (∀ lv : Option Nat, optionsFor .Lzma lv =
      .ok { compression_method := .Lzma, compression_level := none }) ∧
    zw.open_entry (.info zi) =
      (zw, .error (.valueError ("invalid ZIP_DEFLATED compresslevel " ++ toString l))) := by
  refine ⟨?_, ?_, ?_, ?_, ?_⟩
  · intro lv
    cases lv <;> simp [optionsFor, FileOptions.default]
  · intro lv
    by_cases h9 : lv ≤ 9 <;> simp [optionsFor, Except.isOk, Except.toBool, h9]
  · intro lv
    by_cases h19 : 1 ≤ lv ∧ lv ≤ 9 <;>
      simp [optionsFor, Except.isOk, Except.toBool, h19]
  · intro lv
    cases lv <;> simp [optionsFor, FileOptions.default]
  · have hbad' : ¬ l ≤ 9 := by omega
    simp [WriteZipFile.open_entry, hz, hs, WriteZipFile.zip_info_of, ht, hl,
      CompressionKind.tryFrom, optionsFor, hbad']

/-- C6 witness: `ZipInfo` requesting Deflate level 15 on a fresh write
archive; the open fails with the invalid-compresslevel error and registers
nothing. -/
theorem c6_compresslevel_validated_before_codec_witness :
    ({ locked := false,
       slot := some { entries := [], startFails := false, finishFails := false,
                      flushFails := false },
       compression_kind := .Stored, compression_level := none } : WriteZipFile).open_entry
        (.info { filename := "a.txt", compress_type := 8, compress_level := some 15 }) =
      ({ locked := false,
         slot := some { entries := [], startFails := false, finishFails := false,
                        flushFails := false },
         compression_kind := .Stored, compression_level := none },
        .error (.valueError "invalid ZIP_DEFLATED compresslevel 15")) := by
  have h := c6_compresslevel_validated_before_codec
    { locked := false,
      slot := some { entries := [], startFails := false, finishFails := false,
                     flushFails := false },
      compression_kind := .Stored, compression_level := none }
    { entries := [], startFails := false, finishFails := false, flushFails := false }
    { filename := "a.txt", compress_type := 8, compress_level := some 15 }
    15 rfl rfl rfl rfl (by omega)
  exact h.2.2.2.2

/-- C7: read-mode entry-open of an entry marked encrypted: without a password
it fails with the password-required `PyRuntimeError`; with a wrong password
the decrypting path's error surfaces; with the correct password a cursor over
the plaintext is returned, whose `read` yields that plaintext. -/
theorem c7_encrypted_entry_password_paths (z : ReadZipFile) (name : String)
    (a : ZipArchive) (i : Nat) (ent : ZipEntry) (p : List Nat)
    (hz : z.locked = false) (hs : z.slot = some a)
    (hi : a.index_for_name name = some i) (hent : a.entries[i]? = some ent)
    (henc : ent.encrypted = true) (hp : p ≠ ent.password) :
    z.open_entry name none =
      (z, .error (.runtimeError
        ("File " ++ name ++ " is encrypted, password required for extraction"))) ∧
    z.open_entry name (some p) = (z, .error (.runtimeError invalidPasswordMsg)) ∧
    z.open_entry name (some ent.password) =
      ({ z with locked := true }, .ok ⟨some ent.content⟩) ∧
    (ReadZipExtFile.read ⟨some ent.content⟩).2 = .ok ent.content := by
  refine ⟨?_, ?_, ?_, rfl⟩
  · simp [ReadZipFile.open_entry, hz, hs, hi, ZipArchive.by_index_raw, hent, henc]
  · simp [ReadZipFile.open_entry, hz, hs, hi, ZipArchive.by_index_raw, hent, henc,
      ZipArchive.by_index_decrypt, hp]
  · simp [ReadZipFile.open_entry, hz, hs, hi, ZipArchive.by_index_raw, hent, henc,
      ZipArchive.by_index_decrypt]

/-- C7 witness: an archive holding the encrypted entry `secret.txt` whose
password is `[1, 2]` and plaintext `[42]`; no password, the wrong password
`[9]`, and the correct password behave as stated. -/
theorem c7_encrypted_entry_password_paths_witness :
    (({ locked := false,
        slot := some { entries := [{ name := "secret.txt", encrypted := true,
                                     password := [1, 2], content := [42] }] } } :
          ReadZipFile).open_entry "secret.txt" none).2 =
      .error (.runtimeError
        "File secret.txt is encrypted, password required for extraction") ∧
    (({ locked := false,
        slot := some { entries := [{ name := "secret.txt", encrypted := true,
                                     password := [1, 2], content := [42] }] } } :
          ReadZipFile).open_entry "secret.txt" (some [9])).2 =
      .error (.runtimeError invalidPasswordMsg) ∧
    (({ locked := false,
        slot := some { entries := [{ name := "secret.txt", encrypted := true,
                                     password := [1, 2], content := [42] }] } } :
          ReadZipFile).open_entry "secret.txt" (some [1, 2])).2 = .ok ⟨some [42]⟩ := by
  have h := c7_encrypted_entry_password_paths
    { locked := false,
      slot := some { entries := [{ name := "secret.txt", encrypted := true,
                                   password := [1, 2], content := [42] }] } }
    "secret.txt"
    { entries := [{ name := "secret.txt", encrypted := true, password := [1, 2],
                    content := [42] }] }
    0
    { name := "secret.txt", encrypted := true, password := [1, 2], content := [42] }
    [9] rfl rfl rfl rfl rfl (by decide)
  exact ⟨by rw [h.1]; rfl, by rw [h.2.1], by rw [h.2.2.1]⟩


/-- C8: write-mode archive close with the mutex free: the slot is `take`n
first, so whatever `finish`/`flush` do the archive is left closed (slot
drained); a finalize failure surfaces as a `PyRuntimeError`, a flush failure
as the I/O error, and only when both succeed does the call return `Ok`. -/
theorem c8_write_close_finalizes_and_surfaces_errors (zw : WriteZipFile)
    (w : ZipWriter) (hz : zw.locked = false) (hs : zw.slot = some w) :
    (w.finishFails = true →
      zw.close = .returns { zw with slot := none }
        (.error (.runtimeError "could not finish archive"))) ∧
    (w.finishFails = false → w.flushFails = true →
      zw.close = .returns { zw with slot := none } (.error (.osError "flush failed"))) ∧
    (w.finishFails = false → w.flushFails = false →
      zw.close = .returns { zw with slot := none } (.ok ())) ∧
    (∀ (s : WriteZipFile) (r : Except PyErr Unit),
      zw.close = .returns s r → s.slot = none) := by
  refine ⟨?_, ?_, ?_, ?_⟩
  · intro hf
    simp [WriteZipFile.close, hz, hs, ZipWriter.finish, hf]
  · intro hf hfl
    simp [WriteZipFile.close, hz, hs, ZipWriter.finish, hf, FinishedWriter.flush, hfl]
  · intro hf hfl
    simp [WriteZipFile.close, hz, hs, ZipWriter.finish, hf, FinishedWriter.flush, hfl]
  · intro s r h0
    unfold WriteZipFile.close at h0
    repeat' split at h0
    all_goals cases h0
    all_goals simp_all

/-- C8 witness: a write archive whose collaborator `finish` fails — the error
is surfaced and the slot is drained — and one where finish and flush succeed. -/
theorem c8_write_close_finalizes_and_surfaces_errors_witness :
    ({ locked := false,
       slot := some { entries := [], startFails := false, finishFails := true,
                      flushFails := false },
       compression_kind := .Stored, compression_level := none } : WriteZipFile).close =
      .returns { locked := false, slot := none, compression_kind := .Stored,
                 compression_level := none }
        (.error (.runtimeError "could not finish archive")) ∧
    ({ locked := false,
       slot := some { entries := [], startFails := false, finishFails := false,
                      flushFails := false },
       compression_kind := .Stored, compression_level := none } : WriteZipFile).close =
      .returns { locked := false, slot := none, compression_kind := .Stored,
                 compression_level := none } (.ok ()) := by
  have h1 := c8_write_close_finalizes_and_surfaces_errors
    { locked := false,
      slot := some { entries := [], startFails := false, finishFails := true,
                     flushFails := false },
      compression_kind := .Stored, compression_level := none }
    { entries := [], startFails := false, finishFails := true, flushFails := false }
    rfl rfl
  have h2 := c8_write_close_finalizes_and_surfaces_errors
    { locked := false,
      slot := some { entries := [], startFails := false, finishFails := false,
                     flushFails := false },
      compression_kind := .Stored, compression_level := none }
    { entries := [], startFails := false, finishFails := false, flushFails := false }
    rfl rfl
  exact ⟨h1.1 rfl, h2.2.2.1 rfl rfl⟩

/-- C9: a second close after a successful close is a silent no-op everywhere:
the read archive's second close returns `Ok` with an unchanged state; closing
the state any completed write-archive close left behind returns `Ok` with an
unchanged state; a second read-cursor close changes nothing further; and a
write-cursor close never reports anything or changes any state at all. -/
theorem c9_second_close_is_noop (z : ReadZipFile) (zw : WriteZipFile)
    (zc : ReadZipFile) (c : ReadZipExtFile) (zwc : WriteZipFile)
    (cw : WriteZipExtFile) (hz : z.locked = false) :
    (z.close).2 = .ok () ∧
    ((z.close).1.close) = ((z.close).1, .ok ()) ∧
    (∀ (s : WriteZipFile) (r : Except PyErr Unit),
      zw.close = .returns s r → s.close = .returns s (.ok ())) ∧
    ReadZipExtFile.close (ReadZipExtFile.close zc c).1 (ReadZipExtFile.close zc c).2 =
      ReadZipExtFile.close zc c ∧
    WriteZipExtFile.close zwc cw = (zwc, cw) := by
  refine ⟨?_, ?_, ?_, ?_, rfl⟩
  · simp [ReadZipFile.close, hz]
  · simp [ReadZipFile.close, hz]
  · intro s r h0
    unfold WriteZipFile.close at h0
    repeat' split at h0
    all_goals cases h0
    all_goals simp_all [WriteZipFile.close]
  · rcases hc : c.inner with _ | v <;> simp [ReadZipExtFile.close, hc]

/-- C9 witness: concrete fresh read and write archives and cursors; both
second closes return `Ok` and change nothing. -/
theorem c9_second_close_is_noop_witness :
    (({ locked := false, slot := some { entries := [] } } : ReadZipFile).close).2 =
      .ok () ∧
    ({ locked := false, slot := none } : ReadZipFile).close =
      ({ locked := false, slot := none }, .ok ()) := by
  have h := c9_second_close_is_noop
    { locked := false, slot := some { entries := [] } }
    { locked := false, slot := none, compression_kind := .Stored,
      compression_level := none }
    { locked := false, slot := some { entries := [] } } ⟨none⟩
    { locked := false, slot := none, compression_kind := .Stored,
      compression_level := none } .mk rfl
  exact ⟨h.1, h.2.1⟩

/-- C10: a read-mode entry-open whose resolved entry is not marked encrypted
takes the non-decrypting path, so a supplied password is silently ignored —
the call is indistinguishable (same state, same result) from the call without
a password. -/
theorem c10_password_ignored_for_plain_entry (z : ReadZipFile) (name : String)
    (p : List Nat) (a : ZipArchive) (i : Nat) (ent : ZipEntry)
    (hs : z.slot = some a) (hi : a.index_for_name name = some i)
    (hent : a.entries[i]? = some ent) (henc : ent.encrypted = false) :
    z.open_entry name (some p) = z.open_entry name none := by
  by_cases hl : z.locked = true
  · simp [ReadZipFile.open_entry, hl]
  · simp only [Bool.not_eq_true] at hl
    simp [ReadZipFile.open_entry, hl, hs, hi, ZipArchive.by_index_raw, hent, henc]

/-- C10 witness: a plain entry opened with the irrelevant password `[9]`
behaves exactly as the passwordless open. -/
theorem c10_password_ignored_for_plain_entry_witness :
    ({ locked := false,
       slot := some { entries := [{ name := "a.txt", encrypted := false,
                                    password := [], content := [1] }] } } :
         ReadZipFile).open_entry "a.txt" (some [9]) =
      ({ locked := false,
         slot := some { entries := [{ name := "a.txt", encrypted := false,
                                      password := [], content := [1] }] } } :
           ReadZipFile).open_entry "a.txt" none :=
  c10_password_ignored_for_plain_entry
    { locked := false,
      slot := some { entries := [{ name := "a.txt", encrypted := false,
                                   password := [], content := [1] }] } }
    "a.txt" [9]
    { entries := [{ name := "a.txt", encrypted := false, password := [],
                    content := [1] }] }
    0
    { name := "a.txt", encrypted := false, password := [], content := [1] }
    rfl rfl rfl rfl

end NdZip
